import Mathlib

/-!
Shallow embedding of the Metacontroller operator charm (src/src/charm.py).

Modelling conventions:
* A Kubernetes object is flattened to the fields the charm inspects: its
  kind (the Python runtime type used by `isinstance` checks), metadata name,
  optional metadata namespace, the StatefulSet replica counters, and an
  opaque `payload` standing for the rest of the manifest.
* The cluster is an association list keyed by (kind, name, resolved
  namespace).  Following lightkube's documented resolution, `create` places
  an object at its own metadata namespace when present, otherwise at the
  client's default namespace; `get` uses the namespace argument the charm
  passes (the resource's metadata namespace); `patch` uses the namespace
  argument, and the charm's call site passes none, so the client default is
  used.  Cluster-scoped kinds behave like the metadata-namespace-absent
  case and are not distinguished further.
* Fault injection (`FaultEnv`) stands for the cluster API returning an
  arbitrary HTTP error for a given key, e.g. 403 Forbidden on create.
* Exceptions are modelled with `Except`.  On an error outcome the cluster
  mutations made before the failing call are not carried in the value; no
  theorem below inspects the cluster of an error outcome.
* Time is modelled in rational seconds; validator calls are instantaneous
  and elapsed time is the sum of the sleeps performed, mirroring
  tenacity's `stop_after_delay` check (stop once seconds since start reach
  the bound, checked after a failed attempt) and `wait_exponential`
  (`multiplier * 2 ^ attempt_number`, clamped to [min, max]).
-/

/-- Resource key: (kind, metadata name, resolved namespace). -/
abbrev ResKey := String × String × String

/-- A Kubernetes object as the charm sees it. -/
structure K8sObject where
  kind : String
  name : String
  metaNs : Option String
  specReplicas : Option Int
  statusReadyReplicas : Option Int
  payload : Nat
deriving DecidableEq, Repr

/-- A lightkube `ApiError`: the charm only ever reads `e.status.code`. -/
structure ApiErr where
  code : Nat
deriving DecidableEq, Repr

/-- Errors that can escape the charm's functions. -/
inductive CharmError where
  | apiError (code : Nat)
  | notImplementedError
  | valueError (msg : String)
  | checkFailed (msg : String)
deriving DecidableEq, Repr

/-- Cluster state: association list from key to stored object. -/
abbrev Cluster := List (ResKey × K8sObject)

/-- Injected cluster-API failures: keys whose create / get calls fail with
the given HTTP code (modelling Forbidden, server errors, ...). -/
structure FaultEnv where
  createFail : List (ResKey × Nat)
  getFail : List (ResKey × Nat)
deriving DecidableEq, Repr

/-- The environment in which no API call fails spuriously. -/
def noFaults : FaultEnv := ⟨[], []⟩

/-- First fault registered for a key, if any. -/
def faultFor (l : List (ResKey × Nat)) (k : ResKey) : Option Nat :=
  match l with
  | [] => none
  | (k2, code) :: rest => if k2 = k then some code else faultFor rest k

/-- Association-list lookup. -/
def lookupObj (c : Cluster) (k : ResKey) : Option K8sObject :=
  match c with
  | [] => none
  | (k2, v) :: rest => if k2 = k then some v else lookupObj rest k

/-- Insert-or-update an entry. -/
def clusterSet (c : Cluster) (k : ResKey) (v : K8sObject) : Cluster :=
  match c with
  | [] => [(k, v)]
  | (k2, w) :: rest => if k2 = k then (k2, v) :: rest else (k2, w) :: clusterSet rest k v

/-- The key at which `create` stores an object: lightkube uses the object's
metadata namespace when present, else the client default namespace. -/
def objKey (clientNs : String) (o : K8sObject) : ResKey :=
  (o.kind, o.name, o.metaNs.getD clientNs)

/-- lightkube `Client.create(obj)`: fails with an injected code if any,
else 409 if the key already holds an object, else stores the object. -/
def clientCreate (env : FaultEnv) (clientNs : String) (c : Cluster) (o : K8sObject) :
    Except ApiErr Cluster :=
  let k := objKey clientNs o
  match faultFor env.createFail k with
  | some code => .error ⟨code⟩
  | none =>
    match lookupObj c k with
    | some _ => .error ⟨409⟩
    | none => .ok (clusterSet c k o)

/-- lightkube `Client.get(type, name, namespace=ns)`: fails with an injected
code if any, else 404 when absent. -/
def clientGet (env : FaultEnv) (clientNs : String) (c : Cluster)
    (kind name : String) (nsArg : Option String) : Except ApiErr K8sObject :=
  let k := (kind, name, nsArg.getD clientNs)
  match faultFor env.getFail k with
  | some code => .error ⟨code⟩
  | none =>
    match lookupObj c k with
    | some o => .ok o
    | none => .error ⟨404⟩

/-- lightkube `Client.patch(res, name, body, patch_type=MERGE)` with no
namespace argument: addressed at (kind, name, namespace argument else the
client default).  A merge patch of a full `obj.to_dict()` body sets every
field the model carries, so the stored object becomes the body; patching an
absent resource is 404. -/
def clientPatchMerge (env : FaultEnv) (clientNs : String) (c : Cluster)
    (kind name : String) (nsArg : Option String) (body : K8sObject) :
    Except ApiErr Cluster :=
  let _ := env
  let k := (kind, name, nsArg.getD clientNs)
  match lookupObj c k with
  | some _ => .ok (clusterSet c k body)
  | none => .error ⟨404⟩

/-- The tuple `ALLOWED_IF_EXISTS = (None, "replace", "patch")` from charm.py. -/
def ALLOWED_IF_EXISTS : List (Option String) := [none, some "replace", some "patch"]

/-- The `_validate_if_exists` helper from charm.py. -/
def validate_if_exists (ifExists : Option String) : Except CharmError (Option String) :=
  if ifExists ∈ ALLOWED_IF_EXISTS then .ok ifExists
  else .error (.valueError "Invalid value for if_exists")

/-- The per-object loop of `create_all_lightkube_objects`: try create; on an
`ApiError` re-raise unless the code is 409 and a policy is set; `replace`
raises `NotImplementedError`; `patch` merge-patches `type(obj)` /
`obj.metadata.name` with `obj.to_dict()` (no namespace argument). -/
def createLoop (env : FaultEnv) (clientNs : String) (ifExists : Option String) :
    Cluster → List K8sObject → Except CharmError Cluster
  | c, [] => .ok c
  | c, o :: rest =>
    match clientCreate env clientNs c o with
    | .ok c2 => createLoop env clientNs ifExists c2 rest
    | .error e =>
      if e.code ≠ 409 ∨ ifExists = none then .error (.apiError e.code)
      else if ifExists = some "replace" then .error .notImplementedError
      else if ifExists = some "patch" then
        match clientPatchMerge env clientNs c o.kind o.name none o with
        | .ok c2 => createLoop env clientNs ifExists c2 rest
        | .error e2 => .error (.apiError e2.code)
      else .error (.valueError "This should not be reached")

/-- The `create_all_lightkube_objects` function from charm.py. -/
def create_all_lightkube_objects (env : FaultEnv) (clientNs : String)
    (ifExists : Option String) (c : Cluster) (objs : List K8sObject) :
    Except CharmError Cluster :=
  match validate_if_exists ifExists with
  | .error e => .error e
  | .ok _ => createLoop env clientNs ifExists c objs

/-- Print an `Option Int` the way Python prints `None` / an int, for the
discrepancy messages. -/
def optIntStr (v : Option Int) : String :=
  match v with
  | none => "None"
  | some i => toString i

/-- The fetch-failure message of `_check_deployed_resources` (the metadata
repr is abbreviated to kind and name). -/
def cannotFindMsg (r : K8sObject) : String :=
  "Cannot find k8s object for metadata " ++ r.kind ++ " " ++ r.name

/-- The under-replica message of `validate_statefulsets`. -/
def ssNotReadyMsg (o : K8sObject) : String :=
  "StatefulSet " ++ o.name ++ " in namespace " ++ o.metaNs.getD "" ++ " has " ++
    optIntStr o.statusReadyReplicas ++ " readyReplicas, expected " ++
    optIntStr o.specReplicas

/-- The loop body of `validate_statefulsets`: the message an entry of the
fetched list contributes, if any.  A `None` slot contributes nothing
(`isinstance(None, StatefulSet)` is false); a fetched StatefulSet
contributes a message exactly when `status.readyReplicas !=
spec.replicas`. -/
def ssEntry (ob : Option K8sObject) : Option String :=
  match ob with
  | some o =>
    if o.kind = "StatefulSet" then
      if o.statusReadyReplicas ≠ o.specReplicas then some (ssNotReadyMsg o) else none
    else none
  | none => none

/-- The `validate_statefulsets` function from charm.py: scan the fetched slots and
return `(len(errors) == 0, errors)`. -/
def validate_statefulsets (objs : List (Option K8sObject)) : Bool × List String :=
  let errors := objs.filterMap ssEntry
  (decide (errors.length = 0), errors)

/-- The fetch `_check_deployed_resources` performs for one expected
resource: `lightkube_client.get(type(r), r.metadata.name,
namespace=r.metadata.namespace)`. -/
def getExpected (env : FaultEnv) (clientNs : String) (c : Cluster) (r : K8sObject) :
    Except ApiErr K8sObject :=
  clientGet env clientNs c r.kind r.name r.metaNs

/-- One slot of the `found_resources` list: the fetched object, or `none`
when the fetch raised. -/
def fetchOpt (env : FaultEnv) (clientNs : String) (c : Cluster) (r : K8sObject) :
    Option K8sObject :=
  (getExpected env clientNs c r).toOption

/-- The `found_resources` list: one slot per expected resource, `none` kept
in place when the fetch raised. -/
def found_resources (env : FaultEnv) (clientNs : String) (c : Cluster)
    (expected : List K8sObject) : List (Option K8sObject) :=
  expected.map (fetchOpt env clientNs c)

/-- The loop body of the fetch loop: the message one expected resource
contributes, one per resource whose `get` raised any `ApiError`. -/
def fetchErrEntry (env : FaultEnv) (clientNs : String) (c : Cluster) (r : K8sObject) :
    Option String :=
  match getExpected env clientNs c r with
  | .ok _ => none
  | .error _ => some (cannotFindMsg r)

/-- The messages appended by the fetch loop, in loop order. -/
def fetch_errors (env : FaultEnv) (clientNs : String) (c : Cluster)
    (expected : List K8sObject) : List String :=
  expected.filterMap (fetchErrEntry env clientNs c)

/-- The reconciliation outcome of `_check_deployed_resources`: the
aggregated discrepancy list (fetch failures then StatefulSet readiness
failures) and the all-ok flag `len(errors) == 0`. -/
def check_outcome (env : FaultEnv) (clientNs : String) (c : Cluster)
    (expected : List K8sObject) : Bool × List String :=
  let errors := fetch_errors env clientNs c expected ++
    (validate_statefulsets (found_resources env clientNs c expected)).2
  (decide (errors.length = 0), errors)

/-- The message of the `CheckFailed` raised by `_check_deployed_resources`. -/
def CHECK_FAILED_MSG : String :=
  "Some Kubernetes resources missing/not ready.  See logs for details"

/-- The `_check_deployed_resources` method from charm.py as an exception-throwing
function: returns `True` when no discrepancy was recorded, else raises
`CheckFailed`. -/
def check_deployed_resources (env : FaultEnv) (clientNs : String) (c : Cluster)
    (expected : List K8sObject) : Except CharmError Bool :=
  if (check_outcome env clientNs c expected).2.length = 0 then .ok true
  else .error (.checkFailed CHECK_FAILED_MSG)

/-- tenacity `wait_exponential(multiplier=0.1, min=0.1, max=15)`: the sleep
after the failed attempt numbered `attempt` (attempt numbers start at 1),
`max(min, min(multiplier * 2 ^ attempt_number, max))` seconds. -/
def waitExponential (attempt : Nat) : ℚ :=
  max (1 / 10) (min ((1 / 10) * 2 ^ attempt) 15)

/-- Outcome of the retry driver: success at some attempt, or giving up with
the elapsed time at which `stop_after_delay` fired (the last `CheckFailed`
is then re-raised, `reraise=True`).  `fuelout` is an artefact of the fuel
encoding and is proved unreachable below. -/
inductive RetryOutcome where
  | ok (attempt : Nat)
  | failed (attempt : Nat) (elapsed : ℚ)
  | fuelout
deriving DecidableEq, Repr

/-- The tenacity `Retrying` loop of `_install`, fuel-indexed: run the
attempt; on success stop; on `CheckFailed` stop and re-raise once the
elapsed time has reached `maxDelay` (`stop_after_delay`), else sleep
`waitExponential attempt` and retry.  Attempts are instantaneous in the
model, so elapsed time is the sum of the sleeps. -/
def retryAux (oracle : Nat → Bool) (maxDelay : ℚ) :
    Nat → Nat → ℚ → RetryOutcome
  | 0, attempt, elapsed =>
    if oracle attempt then .ok attempt
    else if maxDelay ≤ elapsed then .failed attempt elapsed
    else .fuelout
  | fuel + 1, attempt, elapsed =>
    if oracle attempt then .ok attempt
    else if maxDelay ≤ elapsed then .failed attempt elapsed
    else retryAux oracle maxDelay fuel (attempt + 1) (elapsed + waitExponential attempt)

/-- Fuel that always suffices: every sleep lasts at least 0.1 s, so at most
`10 * maxDelay + 1` sleeps can happen before `stop_after_delay` fires. -/
def installRetryFuel (maxDelay : ℚ) : Nat := (Int.ceil (maxDelay * 10)).toNat + 1

/-- The whole `Retrying(retry=CheckFailed, stop=stop_after_delay(maxDelay),
wait=wait_exponential(0.1, min=0.1, max=15), reraise=True)` loop, starting
at attempt 1 with no time elapsed. -/
def retryDriver (oracle : Nat → Bool) (maxDelay : ℚ) : RetryOutcome :=
  retryAux oracle maxDelay (installRetryFuel maxDelay) 1 0

/-- The `ops.model` unit statuses, with their message. -/
inductive UnitStatus where
  | active
  | waiting (msg : String)
  | maintenance (msg : String)
  | blocked (msg : String)
deriving DecidableEq, Repr

/-- The charm's configuration: client default namespace and the three
rendered manifest groups (`_render_resource` of "rbac" / "crds" /
"controller"), plus `_max_time_checking_resources`. -/
structure CharmModel where
  clientNs : String
  rbacObjs : List K8sObject
  crdsObjs : List K8sObject
  controllerObjs : List K8sObject
  maxTimeCheckingResources : ℚ
deriving DecidableEq, Repr

/-- Default of `self._max_time_checking_resources` (seconds). -/
def maxTimeCheckingResourcesDefault : ℚ := 150

/-- The `_resource_files` insertion order is crds, rbac, controller, so
`_render_all_resources` concatenates the groups in that order. -/
def renderAll (ch : CharmModel) : List K8sObject :=
  ch.crdsObjs ++ ch.rbacObjs ++ ch.controllerObjs

/-- The `_render_resource` step by group name. -/
def renderGroup (ch : CharmModel) (group : String) : List K8sObject :=
  if group = "crds" then ch.crdsObjs
  else if group = "rbac" then ch.rbacObjs
  else ch.controllerObjs

/-- The `_create_resource(resource_name)` method with its default `if_exists="patch"`:
render the group and hand it to `create_all_lightkube_objects`. -/
def create_resource (env : FaultEnv) (ch : CharmModel) (c : Cluster)
    (group : String) : Except CharmError Cluster :=
  create_all_lightkube_objects env ch.clientNs (some "patch") c (renderGroup ch group)

/-- Observable trace of one charm process: cluster, the unit statuses set
in order, the groups passed to `_create_resource`, and how many times
`_check_deployed_resources` ran. -/
structure TraceState where
  cluster : Cluster
  statuses : List UnitStatus
  applierCalls : List String
  checkCalls : Nat
deriving DecidableEq, Repr

/-- Record a unit-status assignment. -/
def pushStatus (s : TraceState) (u : UnitStatus) : TraceState :=
  { s with statuses := s.statuses ++ [u] }

/-- Record a `_create_resource` invocation. -/
def pushApplier (s : TraceState) (g : String) : TraceState :=
  { s with applierCalls := s.applierCalls ++ [g] }

/-- Record `n` validator runs. -/
def bumpChecks (s : TraceState) (n : Nat) : TraceState :=
  { s with checkCalls := s.checkCalls + n }

/-- Status messages used by `_install`. -/
def INSTALLING_MSG : String := "Instantiating Kubernetes objects"

def NO_TRUST_MSG : String := "Cannot create required RBAC.  Charm may not have `--trust`"

def INSTALL_FAILED_MSG : String :=
  "Some Kubernetes resources did not start correctly during install"

def REINSTALLING_MSG : String := "Missing kubernetes resources detected - reinstalling"

def WAITING_MSG : String := "Waiting for leadership"

/-- The tail of `_install` after all three groups were applied: run the
bounded retry loop around `_check_deployed_resources`.  The cluster does
not change between attempts in the pure model, so every attempt sees the
same outcome.  Active on success, Blocked on the `CheckFailed` re-raised
at the deadline (the fuelout arm is unreachable, see
`retryAux_ne_fuelout`, and maps to the same except branch). -/
def installCheckPhase (env : FaultEnv) (ch : CharmModel) (s : TraceState) :
    Except CharmError TraceState :=
  match retryDriver (fun _ => (check_outcome env ch.clientNs s.cluster (renderAll ch)).1)
      ch.maxTimeCheckingResources with
  | .ok n => .ok (pushStatus (bumpChecks s n) .active)
  | .failed n _ => .ok (pushStatus (bumpChecks s n) (.blocked INSTALL_FAILED_MSG))
  | .fuelout => .ok (pushStatus s (.blocked INSTALL_FAILED_MSG))

/-- The `_create_resource("controller")` step of `_install`: a failure
re-raises, a success continues into the check phase. -/
def installControllerPhase (env : FaultEnv) (ch : CharmModel) (s : TraceState) :
    Except CharmError TraceState :=
  match create_resource env ch s.cluster "controller" with
  | .error e => .error e
  | .ok c3 => installCheckPhase env ch { s with cluster := c3 }

/-- The `_create_resource("crds")` step of `_install`: a failure
re-raises, a success continues with the controller group. -/
def installCrdsPhase (env : FaultEnv) (ch : CharmModel) (s : TraceState) :
    Except CharmError TraceState :=
  match create_resource env ch s.cluster "crds" with
  | .error e => .error e
  | .ok c2 => installControllerPhase env ch (pushApplier { s with cluster := c2 } "controller")

/-- The `_install` handler from charm.py: set Maintenance; create rbac, turning only a
403 `ApiError` into the Blocked no-trust status (anything else
re-raises); then the crds, controller and check phases above. -/
def installE (env : FaultEnv) (ch : CharmModel) (s0 : TraceState) :
    Except CharmError TraceState :=
  match create_resource env ch s0.cluster "rbac" with
  | .error (.apiError code) =>
    if code = 403 then
      .ok (pushStatus (pushApplier (pushStatus s0 (.maintenance INSTALLING_MSG)) "rbac")
        (.blocked NO_TRUST_MSG))
    else .error (.apiError code)
  | .error e => .error e
  | .ok c1 =>
    installCrdsPhase env ch
      (pushApplier
        { pushApplier (pushStatus s0 (.maintenance INSTALLING_MSG)) "rbac" with cluster := c1 }
        "crds")

/-- The `_update_status` handler from charm.py: run the validator once; Active on
success; on `CheckFailed` set the reinstalling Maintenance status and run
`_install` once. -/
def updateStatusE (env : FaultEnv) (ch : CharmModel) (s0 : TraceState) :
    Except CharmError TraceState :=
  let s1 := bumpChecks s0 1
  match check_deployed_resources env ch.clientNs s0.cluster (renderAll ch) with
  | .ok _ => .ok (pushStatus s1 .active)
  | .error (.checkFailed _) =>
    installE env ch (pushStatus s1 (.maintenance REINSTALLING_MSG))
  | .error e => .error e

/-- The three lifecycle triggers the charm registers handlers for. -/
inductive LifecycleTrigger where
  | installT
  | removeT
  | updateStatusT
deriving DecidableEq, Repr

/-- One lifecycle delivery: `__init__` checks leadership first and, when
not leader, sets Waiting and returns before any handler is registered, so
nothing else runs; on the leader the registered handler runs (`_remove`
raises `NotImplementedError`). -/
def handleTrigger (isLeader : Bool) (env : FaultEnv) (ch : CharmModel)
    (t : LifecycleTrigger) (s0 : TraceState) : Except CharmError TraceState :=
  if isLeader = false then .ok (pushStatus s0 (.waiting WAITING_MSG))
  else
    match t with
    | .installT => installE env ch s0
    | .removeT => .error .notImplementedError
    | .updateStatusT => updateStatusE env ch s0

/-! ### Concrete fixtures used by witnesses and counterexamples -/

/-- A cluster-scoped RBAC object as rendered from metacontroller-rbac.yaml. -/
def rbW : K8sObject := ⟨"ClusterRole", "mc-role", none, none, none, 1⟩

/-- A CRD object as rendered from metacontroller-crds-v1.yaml. -/
def crW : K8sObject := ⟨"CustomResourceDefinition", "mc-crd", none, none, none, 2⟩

/-- The controller StatefulSet, one replica ready. -/
def ctW : K8sObject := ⟨"StatefulSet", "mc", none, some 1, some 1, 3⟩

/-- The controller StatefulSet with no ready replica. -/
def ctUnreadyW : K8sObject := ⟨"StatefulSet", "mc", none, some 1, some 0, 3⟩

/-- A charm whose rendered resources come up healthy. -/
def chW : CharmModel := ⟨"default", [rbW], [crW], [ctW], 150⟩

/-- A charm whose StatefulSet never becomes ready. -/
def chUnreadyW : CharmModel := ⟨"default", [rbW], [crW], [ctUnreadyW], 150⟩

/-- A fresh trace. -/
def emptyTrace : TraceState := ⟨[], [], [], 0⟩

/-- The cluster holding all of `chW`'s resources. -/
def healthyClusterW : Cluster :=
  [(objKey "default" rbW, rbW), (objKey "default" crW, crW), (objKey "default" ctW, ctW)]

/-- Cluster API denying the RBAC create with 403 Forbidden. -/
def env403W : FaultEnv := ⟨[(("ClusterRole", "mc-role", "default"), 403)], []⟩

/-- Cluster API failing the RBAC create with a 500 server error. -/
def env500W : FaultEnv := ⟨[(("ClusterRole", "mc-role", "default"), 500)], []⟩

/-! ### C9: non-leader units wait and take no further action -/

/-- C9: on any lifecycle trigger, a non-leader unit sets
`Waiting("Waiting for leadership")` and nothing else runs: the result
carries the untouched cluster, no applier call and no validator run. -/
theorem c9_non_leader_no_action (env : FaultEnv) (ch : CharmModel)
    (t : LifecycleTrigger) (s0 : TraceState) :
    handleTrigger false env ch t s0 =
      .ok { s0 with statuses := s0.statuses ++ [.waiting WAITING_MSG] } := rfl

/-! ### C2: install halts on a forbidden RBAC create -/

/-- C2: on an install trigger on the leader, if creating the RBAC group
fails with an `ApiError`, then: for code 403 the handler stops after the
rbac applier call — crds and controller are never applied — and the unit
ends Blocked with the trust message; for any other code the error
propagates uncaught. -/
theorem c2_rbac_forbidden_blocks (env : FaultEnv) (ch : CharmModel)
    (s0 : TraceState) (code : Nat)
    (h : create_resource env ch s0.cluster "rbac" = .error (.apiError code)) :
    (code = 403 →
      handleTrigger true env ch .installT s0 =
        .ok { s0 with
          statuses := s0.statuses ++ [.maintenance INSTALLING_MSG, .blocked NO_TRUST_MSG],
          applierCalls := s0.applierCalls ++ ["rbac"] })
    ∧ (code ≠ 403 →
      handleTrigger true env ch .installT s0 = .error (.apiError code)) := by
  have hmain : handleTrigger true env ch .installT s0 = installE env ch s0 := rfl
  constructor
  · intro hc
    subst hc
    rw [hmain]
    unfold installE
    simp only [pushStatus, pushApplier, h]
    simp [pushStatus, pushApplier]
  · intro hc
    rw [hmain]
    unfold installE
    simp only [pushStatus, pushApplier, h]
    simp [hc]

/-- Witness for C2 at concrete inputs: a 403 on the rbac create blocks
with the trust message after only the rbac applier call, and a 500
propagates uncaught. -/
theorem c2_rbac_forbidden_blocks_witness :
    handleTrigger true env403W chW .installT emptyTrace =
      .ok { cluster := [], statuses := [.maintenance INSTALLING_MSG, .blocked NO_TRUST_MSG],
            applierCalls := ["rbac"], checkCalls := 0 }
    ∧ handleTrigger true env500W chW .installT emptyTrace = .error (.apiError 500) := by
  constructor
  · have h := (c2_rbac_forbidden_blocks env403W chW emptyTrace 403 (by rfl)).1 rfl
    simpa [emptyTrace] using h
  · exact (c2_rbac_forbidden_blocks env500W chW emptyTrace 500 (by rfl)).2 (by decide)

/-! ### The applier loop, one step at a time (shared helper lemmas) -/

/-- Stepping the applier loop past a successful create. -/
theorem createLoop_cons_ok (env : FaultEnv) (cns : String) (ifx : Option String)
    (c : Cluster) (o : K8sObject) (rest : List K8sObject) (c2 : Cluster)
    (h : clientCreate env cns c o = .ok c2) :
    createLoop env cns ifx c (o :: rest) = createLoop env cns ifx c2 rest := by
  conv_lhs => unfold createLoop
  rw [h]

/-- A create failure with a code other than 409 re-raises unchanged,
aborting the remaining sequence, whatever the policy. -/
theorem createLoop_cons_err (env : FaultEnv) (cns : String) (ifx : Option String)
    (c : Cluster) (o : K8sObject) (rest : List K8sObject) (code : Nat)
    (h : clientCreate env cns c o = .error ⟨code⟩) (hc : code ≠ 409) :
    createLoop env cns ifx c (o :: rest) = .error (.apiError code) := by
  conv_lhs => unfold createLoop
  rw [h]
  simp [hc]

/-- A 409 create failure under policy `None` re-raises. -/
theorem createLoop_cons_409_none (env : FaultEnv) (cns : String)
    (c : Cluster) (o : K8sObject) (rest : List K8sObject)
    (h : clientCreate env cns c o = .error ⟨409⟩) :
    createLoop env cns none c (o :: rest) = .error (.apiError 409) := by
  conv_lhs => unfold createLoop
  rw [h]
  simp

/-- A 409 create failure under policy patch is recovered by the merge
patch (addressed without a namespace argument) when that patch succeeds,
and the loop continues on the patched cluster. -/
theorem createLoop_cons_409_patch (env : FaultEnv) (cns : String)
    (c : Cluster) (o : K8sObject) (rest : List K8sObject) (c2 : Cluster)
    (h : clientCreate env cns c o = .error ⟨409⟩)
    (hp : clientPatchMerge env cns c o.kind o.name none o = .ok c2) :
    createLoop env cns (some "patch") c (o :: rest) =
      createLoop env cns (some "patch") c2 rest := by
  conv_lhs => unfold createLoop
  rw [h]
  simp [hp]

/-! ### C3: install applies crds and controller with conflict handling -/

/-- The object occupying the CRD slot before the install of `chW`. -/
def crOldW : K8sObject := ⟨"CustomResourceDefinition", "mc-crd", none, none, none, 99⟩

/-- A cluster in which a crds-group object already exists. -/
def c3preW : Cluster := [(objKey "default" crOldW, crOldW)]

/-- The cluster after installing `chW` over `c3preW`: the existing CRD was
merge-patched, the other resources created. -/
def c3postW : Cluster :=
  [(objKey "default" crW, crW), (objKey "default" rbW, rbW), (objKey "default" ctW, ctW)]

/-- C3 counterexample: with a crds object already present, the install
transition does NOT propagate the 409 create failure as fatal — it
recovers by merge-patching and completes with status Active. -/
theorem c3_counterexample :
    lookupObj c3preW (objKey "default" crW) = some crOldW
    ∧ installE noFaults chW
        { cluster := c3preW, statuses := [], applierCalls := [], checkCalls := 0 } =
      .ok { cluster := c3postW,
            statuses := [.maintenance INSTALLING_MSG, .active],
            applierCalls := ["rbac", "crds", "controller"],
            checkCalls := 1 } :=
  ⟨rfl, rfl⟩

/-- C3 amended: during install the crds and controller groups are applied
with `if_exists="patch"` (the default of `_create_resource`), so an
already-exists 409 is recovered by a merge patch; only create failures
with another code propagate as fatal. -/
theorem c3_amended_conflicts_patched :
    (∀ (env : FaultEnv) (cns : String) (c : Cluster) (o : K8sObject)
        (rest : List K8sObject) (c2 : Cluster),
      clientCreate env cns c o = .error ⟨409⟩ →
      clientPatchMerge env cns c o.kind o.name none o = .ok c2 →
      createLoop env cns (some "patch") c (o :: rest) =
        createLoop env cns (some "patch") c2 rest)
    ∧ (∀ (env : FaultEnv) (cns : String) (c : Cluster) (o : K8sObject)
        (rest : List K8sObject) (code : Nat),
      clientCreate env cns c o = .error ⟨code⟩ → code ≠ 409 →
      createLoop env cns (some "patch") c (o :: rest) = .error (.apiError code))
    ∧ (∀ (env : FaultEnv) (ch : CharmModel) (c : Cluster) (g : String),
      create_resource env ch c g = createLoop env ch.clientNs (some "patch") c (renderGroup ch g)) :=
  ⟨fun env cns c o rest c2 h hp => createLoop_cons_409_patch env cns c o rest c2 h hp,
   fun env cns c o rest code h hc => createLoop_cons_err env cns (some "patch") c o rest code h hc,
   fun _ _ _ _ => rfl⟩

/-- Cluster API failing the CRD create with a 500 server error. -/
def envCr500W : FaultEnv := ⟨[(objKey "default" crW, 500)], []⟩

/-- Witness for the amended C3 at concrete inputs: a 409 on a crds object
is recovered by the patch, and a 500 propagates. -/
theorem c3_amended_conflicts_patched_witness :
    createLoop noFaults "default" (some "patch") c3preW [crW] =
      createLoop noFaults "default" (some "patch") [(objKey "default" crW, crW)] []
    ∧ createLoop envCr500W "default" (some "patch") [] [crW] = .error (.apiError 500) :=
  ⟨c3_amended_conflicts_patched.1 noFaults "default" c3preW crW []
      [(objKey "default" crW, crW)] (by rfl) (by rfl),
   c3_amended_conflicts_patched.2.1 envCr500W "default" [] crW [] 500 (by rfl) (by decide)⟩

/-! ### C5: the applier's per-resource contract -/

/-- An object whose metadata namespace differs from the client default. -/
def o5W : K8sObject := ⟨"Role", "r1", some "user-ns", none, none, 3⟩

/-- The object already occupying `o5W`'s slot in its own namespace. -/
def old5W : K8sObject := ⟨"Role", "r1", some "user-ns", none, none, 4⟩

/-- A cluster in which `o5W` already exists (in namespace user-ns). -/
def c5preW : Cluster := [(objKey "default" o5W, old5W)]

/-- C5 counterexample: the conflicting object exists at
(Role, r1, user-ns), so create fails with 409; but the recovery patch is
issued without a namespace and is addressed at the client default
namespace, where nothing exists — the apply fails with 404 instead of
merge-patching the existing object by (kind, name, namespace). -/
theorem c5_counterexample :
    lookupObj c5preW (objKey "default" o5W) = some old5W
    ∧ create_all_lightkube_objects noFaults "default" (some "patch") c5preW [o5W] =
        .error (.apiError 404) :=
  ⟨rfl, rfl⟩

/-- C5 amended: creates are attempted in order; a 409 under policy patch
is recovered by a merge patch of the full spec addressed at (kind, name)
in the CLIENT DEFAULT namespace — the object's own namespace is not
passed; a 409 under policy `None` propagates; any non-409 create failure
propagates unchanged, aborting the remaining sequence. -/
theorem c5_amended_applier_contract :
    (∀ (env : FaultEnv) (cns : String) (ifx : Option String) (c : Cluster)
        (o : K8sObject) (rest : List K8sObject) (c2 : Cluster),
      clientCreate env cns c o = .ok c2 →
      createLoop env cns ifx c (o :: rest) = createLoop env cns ifx c2 rest)
    ∧ (∀ (env : FaultEnv) (cns : String) (c : Cluster) (o : K8sObject)
        (rest : List K8sObject) (c2 : Cluster),
      clientCreate env cns c o = .error ⟨409⟩ →
      clientPatchMerge env cns c o.kind o.name none o = .ok c2 →
      createLoop env cns (some "patch") c (o :: rest) =
        createLoop env cns (some "patch") c2 rest)
    ∧ (∀ (env : FaultEnv) (cns : String) (c : Cluster) (o : K8sObject) (v : K8sObject),
      lookupObj c (o.kind, o.name, cns) = some v →
      clientPatchMerge env cns c o.kind o.name none o =
        .ok (clusterSet c (o.kind, o.name, cns) o))
    ∧ (∀ (env : FaultEnv) (cns : String) (c : Cluster) (o : K8sObject)
        (rest : List K8sObject),
      clientCreate env cns c o = .error ⟨409⟩ →
      createLoop env cns none c (o :: rest) = .error (.apiError 409))
    ∧ (∀ (env : FaultEnv) (cns : String) (ifx : Option String) (c : Cluster)
        (o : K8sObject) (rest : List K8sObject) (code : Nat),
      clientCreate env cns c o = .error ⟨code⟩ → code ≠ 409 →
      createLoop env cns ifx c (o :: rest) = .error (.apiError code)) := by
  refine ⟨fun env cns ifx c o rest c2 h => createLoop_cons_ok env cns ifx c o rest c2 h,
    fun env cns c o rest c2 h hp => createLoop_cons_409_patch env cns c o rest c2 h hp,
    fun env cns c o v h => ?_,
    fun env cns c o rest h => createLoop_cons_409_none env cns c o rest h,
    fun env cns ifx c o rest code h hc => createLoop_cons_err env cns ifx c o rest code h hc⟩
  simp [clientPatchMerge, h]

/-- Cluster API failing the create of `rbW` with a 500 server error. -/
def envRb500W : FaultEnv := ⟨[(objKey "default" rbW, 500)], []⟩

/-- A cluster in which `rbW` already exists at its create key. -/
def c5rbPreW : Cluster := [(objKey "default" rbW, rbW)]

/-- Witness for the amended C5 at concrete inputs, one per conjunct:
a plain create, a patched 409, the patch addressing, a 409 under policy
`None`, a propagated 500. -/
theorem c5_amended_applier_contract_witness :
    createLoop noFaults "default" none [] [rbW] =
      createLoop noFaults "default" none [(objKey "default" rbW, rbW)] []
    ∧ createLoop noFaults "default" (some "patch") c5rbPreW [rbW] =
        createLoop noFaults "default" (some "patch") [(objKey "default" rbW, rbW)] []
    ∧ clientPatchMerge noFaults "default" c5rbPreW rbW.kind rbW.name none rbW =
        .ok (clusterSet c5rbPreW (rbW.kind, rbW.name, "default") rbW)
    ∧ createLoop noFaults "default" none c5rbPreW [rbW] = .error (.apiError 409)
    ∧ createLoop envRb500W "default" (some "patch") [] [rbW] = .error (.apiError 500) :=
  ⟨c5_amended_applier_contract.1 noFaults "default" none [] rbW []
      [(objKey "default" rbW, rbW)] (by rfl),
   c5_amended_applier_contract.2.1 noFaults "default" c5rbPreW rbW []
      [(objKey "default" rbW, rbW)] (by rfl) (by rfl),
   c5_amended_applier_contract.2.2.1 noFaults "default" c5rbPreW rbW rbW (by rfl),
   c5_amended_applier_contract.2.2.2.1 noFaults "default" c5rbPreW rbW [] (by rfl),
   c5_amended_applier_contract.2.2.2.2 envRb500W "default" (some "patch") [] rbW [] 500
      (by rfl) (by decide)⟩

/-! ### C7: which cluster errors propagate as fatal -/

/-- An expected resource whose fetch will fail with a server error. -/
def svcW : K8sObject := ⟨"Service", "s1", none, none, none, 0⟩

/-- Cluster API failing the get of `svcW` with a 500 server error. -/
def envGet500W : FaultEnv := ⟨[], [(("Service", "s1", "default"), 500)]⟩

/-- C7 counterexample: a 500 fetch error during validation is NOT
propagated as fatal — `_check_deployed_resources` catches every
`ApiError` and aggregates it as a "cannot find" discrepancy, raising
`CheckFailed` instead. -/
theorem c7_counterexample :
    check_deployed_resources envGet500W "default" [] [svcW] =
      .error (.checkFailed CHECK_FAILED_MSG)
    ∧ check_outcome envGet500W "default" [] [svcW] = (false, [cannotFindMsg svcW])
    ∧ check_deployed_resources envGet500W "default" [] [svcW] ≠ .error (.apiError 500) := by
  refine ⟨rfl, rfl, ?_⟩
  simp [show check_deployed_resources envGet500W "default" [] [svcW] =
    .error (.checkFailed CHECK_FAILED_MSG) from rfl]

/-- C7 amended: in the apply path a create failure whose code is not 409
propagates unchanged and aborts the sequence; in the validation path no
`ApiError` ever propagates — `_check_deployed_resources` either returns
True or raises `CheckFailed`, all fetch errors having been aggregated as
discrepancies. -/
theorem c7_amended_error_propagation :
    (∀ (env : FaultEnv) (cns : String) (ifx : Option String) (c : Cluster)
        (o : K8sObject) (rest : List K8sObject) (code : Nat),
      clientCreate env cns c o = .error ⟨code⟩ → code ≠ 409 →
      createLoop env cns ifx c (o :: rest) = .error (.apiError code))
    ∧ (∀ (env : FaultEnv) (cns : String) (c : Cluster) (expected : List K8sObject),
      check_deployed_resources env cns c expected = .ok true ∨
      check_deployed_resources env cns c expected = .error (.checkFailed CHECK_FAILED_MSG)) := by
  refine ⟨fun env cns ifx c o rest code h hc => createLoop_cons_err env cns ifx c o rest code h hc,
    fun env cns c expected => ?_⟩
  by_cases h : (check_outcome env cns c expected).2.length = 0 <;>
    simp [check_deployed_resources, h]

/-- Witness for the amended C7 at a concrete input: a 502 on a create
aborts the apply sequence with that error. -/
theorem c7_amended_error_propagation_witness :
    createLoop (⟨[(objKey "default" svcW, 502)], []⟩ : FaultEnv) "default" none [] [svcW] =
      .error (.apiError 502) :=
  c7_amended_error_propagation.1 ⟨[(objKey "default" svcW, 502)], []⟩ "default" none [] svcW []
    502 (by rfl) (by decide)

/-! ### C4: update-status runs the validator once and degrades into install -/

/-- C4: on an update-status trigger on the leader, the validator runs
exactly once outside any retry wrapper (checkCalls grows by one before
branching); on success the unit goes Active with no applier call and no
cluster mutation; on `CheckFailed` the status first becomes the
reinstalling Maintenance status and the result is exactly one run of the
full install transition from there. -/
theorem c4_update_status_once (env : FaultEnv) (ch : CharmModel) (s0 : TraceState) :
    (check_deployed_resources env ch.clientNs s0.cluster (renderAll ch) = .ok true →
      handleTrigger true env ch .updateStatusT s0 =
        .ok { s0 with checkCalls := s0.checkCalls + 1,
                      statuses := s0.statuses ++ [.active] })
    ∧ (∀ m, check_deployed_resources env ch.clientNs s0.cluster (renderAll ch) =
          .error (.checkFailed m) →
      handleTrigger true env ch .updateStatusT s0 =
        installE env ch
          { s0 with checkCalls := s0.checkCalls + 1,
                    statuses := s0.statuses ++ [.maintenance REINSTALLING_MSG] }) := by
  have hmain : handleTrigger true env ch .updateStatusT s0 = updateStatusE env ch s0 := rfl
  constructor
  · intro h
    rw [hmain]
    conv_lhs => unfold updateStatusE
    rw [h]
    rfl
  · intro m h
    rw [hmain]
    conv_lhs => unfold updateStatusE
    rw [h]
    rfl

/-- Witness for C4 at concrete inputs: on a healthy cluster update-status
goes Active with zero applier calls; on an empty cluster it degrades into
exactly one install run after the reinstalling Maintenance status. -/
theorem c4_update_status_once_witness :
    handleTrigger true noFaults chW .updateStatusT
        { cluster := healthyClusterW, statuses := [], applierCalls := [], checkCalls := 0 } =
      .ok { cluster := healthyClusterW, statuses := [.active],
            applierCalls := [], checkCalls := 1 }
    ∧ handleTrigger true noFaults chW .updateStatusT emptyTrace =
        installE noFaults chW
          { cluster := [], statuses := [.maintenance REINSTALLING_MSG],
            applierCalls := [], checkCalls := 1 } := by
  constructor
  · have h := (c4_update_status_once noFaults chW
      ⟨healthyClusterW, [], [], 0⟩).1 (by rfl)
    simpa using h
  · have h := (c4_update_status_once noFaults chW emptyTrace).2 CHECK_FAILED_MSG (by rfl)
    simpa [emptyTrace] using h

/-! ### C1: the validator succeeds iff all fetched and all StatefulSets ready -/

/-- One fetch-loop entry contributes no message exactly when the get
succeeded. -/
theorem fetchErrEntry_eq_none_iff (env : FaultEnv) (cns : String) (c : Cluster)
    (r : K8sObject) :
    fetchErrEntry env cns c r = none ↔ ∃ o, getExpected env cns c r = .ok o := by
  unfold fetchErrEntry
  cases h : getExpected env cns c r <;> simp [h]

/-- One StatefulSet-check entry contributes no message exactly when every
successfully fetched value that is a StatefulSet has its ready replicas
equal to its desired replicas. -/
theorem ssEntry_fetchOpt_eq_none_iff (env : FaultEnv) (cns : String) (c : Cluster)
    (r : K8sObject) :
    ssEntry (fetchOpt env cns c r) = none ↔
      ∀ o, getExpected env cns c r = .ok o → o.kind = "StatefulSet" →
        o.statusReadyReplicas = o.specReplicas := by
  unfold fetchOpt
  cases h : getExpected env cns c r with
  | error e => simp [h, ssEntry, Except.toOption]
  | ok o =>
    simp only [h, Except.toOption]
    unfold ssEntry
    by_cases hk : o.kind = "StatefulSet"
    · by_cases hr : o.statusReadyReplicas = o.specReplicas
      · simp [hk, hr]
      · simp [hk, hr]
    · simp [hk]

/-- C1: the validation pass reports `allOk` iff every expected resource is
fetched successfully AND every fetched StatefulSet has
`status.readyReplicas = spec.replicas`; `allOk` is by construction the
emptiness of the aggregated discrepancy list, and
`_check_deployed_resources` returns True exactly in that case, raising
`CheckFailed` otherwise. -/
theorem c1_validator_iff (env : FaultEnv) (cns : String) (c : Cluster)
    (expected : List K8sObject) :
    ((check_outcome env cns c expected).1 = true ↔
      ((∀ r ∈ expected, ∃ o, getExpected env cns c r = .ok o) ∧
       (∀ r ∈ expected, ∀ o, getExpected env cns c r = .ok o →
          o.kind = "StatefulSet" → o.statusReadyReplicas = o.specReplicas)))
    ∧ ((check_outcome env cns c expected).1 =
        decide ((check_outcome env cns c expected).2.length = 0))
    ∧ (check_deployed_resources env cns c expected = .ok true ↔
        (check_outcome env cns c expected).1 = true)
    ∧ ((check_outcome env cns c expected).1 = false →
        check_deployed_resources env cns c expected = .error (.checkFailed CHECK_FAILED_MSG)) := by
  have h2 : (check_outcome env cns c expected).1 =
      decide ((check_outcome env cns c expected).2.length = 0) := rfl
  have hkey : (check_outcome env cns c expected).1 = true ↔
      (fetch_errors env cns c expected = [] ∧
        (found_resources env cns c expected).filterMap ssEntry = []) := by
    unfold check_outcome
    simp [validate_statefulsets, List.length_eq_zero, List.append_eq_nil]
  refine ⟨?_, h2, ?_, ?_⟩
  · apply Iff.trans hkey
    apply and_congr
    · rw [fetch_errors, List.filterMap_eq_nil_iff]
      exact forall₂_congr fun r _ => fetchErrEntry_eq_none_iff env cns c r
    · rw [found_resources, List.filterMap_map, List.filterMap_eq_nil_iff]
      refine forall₂_congr fun r _ => ?_
      simpa using ssEntry_fetchOpt_eq_none_iff env cns c r
  · rw [h2]
    by_cases h : (check_outcome env cns c expected).2.length = 0 <;>
      simp [check_deployed_resources, h]
  · intro hfalse
    rw [h2] at hfalse
    simp only [decide_eq_false_iff_not] at hfalse
    unfold check_deployed_resources
    rw [if_neg hfalse]

/-! ### C10: a missing resource contributes exactly one discrepancy -/

/-- Whether the fetch of an expected resource raised. -/
def fetch_failed_b (env : FaultEnv) (cns : String) (c : Cluster) (r : K8sObject) : Bool :=
  match getExpected env cns c r with
  | .ok _ => false
  | .error _ => true

/-- Whether an expected resource was fetched as a StatefulSet whose ready
replicas differ from its desired replicas. -/
def unready_ss_b (env : FaultEnv) (cns : String) (c : Cluster) (r : K8sObject) : Bool :=
  match getExpected env cns c r with
  | .ok o => decide (o.kind = "StatefulSet" ∧ ¬o.statusReadyReplicas = o.specReplicas)
  | .error _ => false

/-- Length of a filterMap as a count. -/
theorem length_filterMap_countP {α β : Type} (f : α → Option β) (l : List α) :
    (l.filterMap f).length = l.countP (fun a => (f a).isSome) := by
  induction l with
  | nil => rfl
  | cons a t ih =>
    rw [List.filterMap_cons, List.countP_cons]
    cases h : f a <;> simp [h, ih]

/-- C10: the discrepancy list has exactly one message per failed fetch
plus one per fetched-but-unready StatefulSet — a resource whose fetch
failed is counted only by the not-found message, never additionally by a
replica mismatch; indeed a `None` slot is skipped outright by
`validate_statefulsets`. -/
theorem c10_missing_counts_once (env : FaultEnv) (cns : String) (c : Cluster)
    (expected : List K8sObject) :
    ((check_outcome env cns c expected).2.length =
      expected.countP (fetch_failed_b env cns c) +
        expected.countP (unready_ss_b env cns c))
    ∧ (∀ objs : List (Option K8sObject),
        (validate_statefulsets (none :: objs)).2 = (validate_statefulsets objs).2) := by
  constructor
  · have hfe : (fetch_errors env cns c expected).length =
        expected.countP (fetch_failed_b env cns c) := by
      rw [fetch_errors, length_filterMap_countP]
      apply List.countP_congr
      intro r _
      unfold fetchErrEntry fetch_failed_b
      cases h : getExpected env cns c r <;> simp [h]
    have hss : ((found_resources env cns c expected).filterMap ssEntry).length =
        expected.countP (unready_ss_b env cns c) := by
      rw [found_resources, List.filterMap_map, length_filterMap_countP]
      apply List.countP_congr
      intro r _
      simp only [Function.comp_apply]
      unfold fetchOpt unready_ss_b ssEntry
      cases h : getExpected env cns c r with
      | error e => simp [h, Except.toOption]
      | ok o =>
        simp only [h, Except.toOption]
        by_cases hk : o.kind = "StatefulSet" <;>
          by_cases hr2 : o.statusReadyReplicas = o.specReplicas <;> simp [hk, hr2]
    have hvs : (validate_statefulsets (found_resources env cns c expected)).2 =
        (found_resources env cns c expected).filterMap ssEntry := rfl
    show (fetch_errors env cns c expected ++
      (validate_statefulsets (found_resources env cns c expected)).2).length = _
    rw [hvs, List.length_append, hfe, hss]
  · intro objs
    rfl

/-! ### C6: the install-time retry driver -/

/-- Every sleep lasts at least the configured minimum 0.1 s. -/
theorem waitExponential_lb (n : Nat) : 1 / 10 ≤ waitExponential n := le_max_left _ _

/-- Every sleep is capped at 15 s. -/
theorem waitExponential_ub (n : Nat) : waitExponential n ≤ 15 :=
  max_le (by norm_num) (min_le_right _ _)

/-- The sleep intervals are non-decreasing (exponential until the cap). -/
theorem waitExponential_mono (n : Nat) : waitExponential n ≤ waitExponential (n + 1) := by
  unfold waitExponential
  apply max_le_max le_rfl
  apply min_le_min _ le_rfl
  have h : (2:ℚ) ^ n ≤ 2 ^ (n + 1) := by
    apply pow_le_pow_right₀ (by norm_num) (Nat.le_succ n)
  nlinarith

/-- If the loop reports success at attempt `a`, that attempt passed and
all earlier attempts (from the starting one) had failed. -/
theorem retryAux_ok_sound (oracle : Nat → Bool) (md : ℚ) :
    ∀ (fuel attempt : Nat) (elapsed : ℚ) (a : Nat),
      retryAux oracle md fuel attempt elapsed = .ok a →
      oracle a = true ∧ attempt ≤ a ∧ ∀ j, attempt ≤ j → j < a → oracle j = false := by
  intro fuel
  induction fuel with
  | zero =>
    intro attempt elapsed a h
    unfold retryAux at h
    by_cases ho : oracle attempt = true
    · rw [if_pos ho] at h
      cases h
      exact ⟨ho, le_rfl, fun j hj1 hj2 => absurd (lt_of_le_of_lt hj1 hj2) (lt_irrefl _)⟩
    · rw [if_neg ho] at h
      by_cases hstop : md ≤ elapsed
      · rw [if_pos hstop] at h
        exact RetryOutcome.noConfusion h
      · rw [if_neg hstop] at h
        exact RetryOutcome.noConfusion h
  | succ f ih =>
    intro attempt elapsed a h
    unfold retryAux at h
    by_cases ho : oracle attempt = true
    · rw [if_pos ho] at h
      cases h
      exact ⟨ho, le_rfl, fun j hj1 hj2 => absurd (lt_of_le_of_lt hj1 hj2) (lt_irrefl _)⟩
    · rw [if_neg ho] at h
      by_cases hstop : md ≤ elapsed
      · rw [if_pos hstop] at h
        exact RetryOutcome.noConfusion h
      · rw [if_neg hstop] at h
        obtain ⟨h1, h2, h3⟩ := ih (attempt + 1) _ a h
        refine ⟨h1, by omega, ?_⟩
        intro j hj1 hj2
        rcases Nat.eq_or_lt_of_le hj1 with heq | hlt
        · subst heq
          simpa using ho
        · exact h3 j hlt hj2

/-- If the loop gives up, the elapsed time had reached the deadline:
`stop_after_delay` fired. -/
theorem retryAux_failed_ge (oracle : Nat → Bool) (md : ℚ) :
    ∀ (fuel attempt : Nat) (elapsed : ℚ) (a : Nat) (e : ℚ),
      retryAux oracle md fuel attempt elapsed = .failed a e → md ≤ e := by
  intro fuel
  induction fuel with
  | zero =>
    intro attempt elapsed a e h
    unfold retryAux at h
    split at h
    · simp at h
    · split at h
      · rename_i hstop
        cases h
        exact hstop
      · simp at h
  | succ f ih =>
    intro attempt elapsed a e h
    unfold retryAux at h
    split at h
    · simp at h
    · split at h
      · rename_i hstop
        cases h
        exact hstop
      · exact ih _ _ _ _ h

/-- With enough fuel the loop never hits the fuel bound: each sleep lasts
at least 0.1 s, so the remaining time budget, in tenths of a second, is a
strict bound on the remaining iterations. -/
theorem retryAux_ne_fuelout (oracle : Nat → Bool) (md : ℚ) :
    ∀ (fuel attempt : Nat) (elapsed : ℚ), (md - elapsed) * 10 ≤ (fuel : ℚ) →
      retryAux oracle md fuel attempt elapsed ≠ .fuelout := by
  intro fuel
  induction fuel with
  | zero =>
    intro attempt elapsed hf
    have hstop : md ≤ elapsed := by
      by_contra hlt
      push_neg at hlt
      push_cast at hf
      nlinarith
    unfold retryAux
    by_cases ho : oracle attempt = true
    · rw [if_pos ho]
      exact RetryOutcome.noConfusion
    · rw [if_neg ho, if_pos hstop]
      exact RetryOutcome.noConfusion
  | succ f ih =>
    intro attempt elapsed hf
    unfold retryAux
    by_cases ho : oracle attempt = true
    · rw [if_pos ho]
      exact RetryOutcome.noConfusion
    · rw [if_neg ho]
      by_cases hstop : md ≤ elapsed
      · rw [if_pos hstop]
        exact RetryOutcome.noConfusion
      · rw [if_neg hstop]
        apply ih
        have hw : (1:ℚ) / 10 ≤ waitExponential attempt := waitExponential_lb attempt
        push_cast at hf ⊢
        linarith

/-- If every validation attempt fails, the loop gives up with
`stop_after_delay` fired. -/
theorem retryAux_allfalse (oracle : Nat → Bool) (md : ℚ) (hall : ∀ n, oracle n = false) :
    ∀ (fuel attempt : Nat) (elapsed : ℚ), (md - elapsed) * 10 ≤ (fuel : ℚ) →
      ∃ a e, retryAux oracle md fuel attempt elapsed = .failed a e ∧ md ≤ e := by
  intro fuel
  induction fuel with
  | zero =>
    intro attempt elapsed hf
    have hstop : md ≤ elapsed := by
      by_contra hlt
      push_neg at hlt
      push_cast at hf
      nlinarith
    have ho : ¬oracle attempt = true := by
      rw [hall attempt]
      exact Bool.false_ne_true
    unfold retryAux
    rw [if_neg ho, if_pos hstop]
    exact ⟨attempt, elapsed, rfl, hstop⟩
  | succ f ih =>
    intro attempt elapsed hf
    have ho : ¬oracle attempt = true := by
      rw [hall attempt]
      exact Bool.false_ne_true
    unfold retryAux
    rw [if_neg ho]
    by_cases hstop : md ≤ elapsed
    · rw [if_pos hstop]
      exact ⟨attempt, elapsed, rfl, hstop⟩
    · rw [if_neg hstop]
      apply ih
      have hw : (1:ℚ) / 10 ≤ waitExponential attempt := waitExponential_lb attempt
      push_cast at hf ⊢
      linarith

/-- The fuel used by `retryDriver` satisfies the bound at the start. -/
theorem installRetryFuel_sufficient (md : ℚ) :
    (md - 0) * 10 ≤ (installRetryFuel md : ℚ) := by
  unfold installRetryFuel
  have h1 : md * 10 ≤ (Int.ceil (md * 10) : ℚ) := Int.le_ceil _
  have h2 : (Int.ceil (md * 10) : ℤ) ≤ ((Int.ceil (md * 10)).toNat : ℤ) :=
    Int.self_le_toNat _
  have h2q : ((Int.ceil (md * 10) : ℤ) : ℚ) ≤ (((Int.ceil (md * 10)).toNat : ℤ) : ℚ) := by
    exact_mod_cast h2
  push_cast at h2q ⊢
  linarith

/-- An attempt that passes stops the loop at once. -/
theorem retryAux_first_true (oracle : Nat → Bool) (md : ℚ) (fuel attempt : Nat)
    (elapsed : ℚ) (h : oracle attempt = true) :
    retryAux oracle md fuel attempt elapsed = .ok attempt := by
  cases fuel <;> simp [retryAux, h]

/-- The driver reports success only for the first passing attempt. -/
theorem retryDriver_ok_sound (oracle : Nat → Bool) (md : ℚ) (a : Nat)
    (h : retryDriver oracle md = .ok a) :
    oracle a = true ∧ ∀ j, 1 ≤ j → j < a → oracle j = false := by
  obtain ⟨h1, _, h3⟩ := retryAux_ok_sound oracle md (installRetryFuel md) 1 0 a h
  exact ⟨h1, h3⟩

/-- If every attempt fails, the driver gives up once elapsed time reaches
the deadline, re-raising the last failure. -/
theorem retryDriver_allfalse (oracle : Nat → Bool) (md : ℚ)
    (hall : ∀ n, oracle n = false) :
    ∃ a e, retryDriver oracle md = .failed a e ∧ md ≤ e :=
  retryAux_allfalse oracle md hall (installRetryFuel md) 1 0 (installRetryFuel_sufficient md)

/-- The fuel artefact never surfaces. -/
theorem retryDriver_ne_fuelout (oracle : Nat → Bool) (md : ℚ) :
    retryDriver oracle md ≠ .fuelout :=
  retryAux_ne_fuelout oracle md (installRetryFuel md) 1 0 (installRetryFuel_sufficient md)

/-- A first passing attempt ends the driver at attempt 1. -/
theorem retryDriver_first_true (oracle : Nat → Bool) (md : ℚ) (h : oracle 1 = true) :
    retryDriver oracle md = .ok 1 :=
  retryAux_first_true oracle md (installRetryFuel md) 1 0 h

/-! ### Stepping lemmas for the install phases -/

/-- A successful rbac apply moves install into the crds phase. -/
theorem installE_rbac_ok (env : FaultEnv) (ch : CharmModel) (s0 : TraceState) (c1 : Cluster)
    (h : create_resource env ch s0.cluster "rbac" = .ok c1) :
    installE env ch s0 = installCrdsPhase env ch
      (pushApplier
        { pushApplier (pushStatus s0 (.maintenance INSTALLING_MSG)) "rbac" with cluster := c1 }
        "crds") := by
  conv_lhs => unfold installE
  rw [h]

/-- A successful crds apply moves install into the controller phase. -/
theorem installCrdsPhase_ok (env : FaultEnv) (ch : CharmModel) (s : TraceState) (c2 : Cluster)
    (h : create_resource env ch s.cluster "crds" = .ok c2) :
    installCrdsPhase env ch s =
      installControllerPhase env ch (pushApplier { s with cluster := c2 } "controller") := by
  conv_lhs => unfold installCrdsPhase
  rw [h]

/-- A failing crds apply re-raises. -/
theorem installCrdsPhase_err (env : FaultEnv) (ch : CharmModel) (s : TraceState)
    (e : CharmError) (h : create_resource env ch s.cluster "crds" = .error e) :
    installCrdsPhase env ch s = .error e := by
  conv_lhs => unfold installCrdsPhase
  rw [h]

/-- A successful controller apply moves install into the check phase. -/
theorem installControllerPhase_ok (env : FaultEnv) (ch : CharmModel) (s : TraceState)
    (c3 : Cluster) (h : create_resource env ch s.cluster "controller" = .ok c3) :
    installControllerPhase env ch s = installCheckPhase env ch { s with cluster := c3 } := by
  conv_lhs => unfold installControllerPhase
  rw [h]

/-- A failing controller apply re-raises. -/
theorem installControllerPhase_err (env : FaultEnv) (ch : CharmModel) (s : TraceState)
    (e : CharmError) (h : create_resource env ch s.cluster "controller" = .error e) :
    installControllerPhase env ch s = .error e := by
  conv_lhs => unfold installControllerPhase
  rw [h]

/-- If validation passes, the check phase runs it once and goes Active. -/
theorem installCheckPhase_true (env : FaultEnv) (ch : CharmModel) (s : TraceState)
    (h : (check_outcome env ch.clientNs s.cluster (renderAll ch)).1 = true) :
    installCheckPhase env ch s = .ok (pushStatus (bumpChecks s 1) .active) := by
  conv_lhs => unfold installCheckPhase
  rw [h, retryDriver_first_true _ _ rfl]

/-- If validation keeps failing, the check phase ends Blocked after some
number of attempts. -/
theorem installCheckPhase_false (env : FaultEnv) (ch : CharmModel) (s : TraceState)
    (h : (check_outcome env ch.clientNs s.cluster (renderAll ch)).1 = false) :
    ∃ n, installCheckPhase env ch s =
      .ok (pushStatus (bumpChecks s n) (.blocked INSTALL_FAILED_MSG)) := by
  obtain ⟨a, e, heq, _⟩ :=
    retryDriver_allfalse (fun _ => false) ch.maxTimeCheckingResources (fun _ => rfl)
  refine ⟨a, ?_⟩
  conv_lhs => unfold installCheckPhase
  rw [h, heq]

/-- C6: the install-time retry driver.  The sleep intervals are the
tenacity exponential waits with base 0.1 s, at least 0.1 s, capped at
15 s, non-decreasing; `_max_time_checking_resources` defaults to 150 s; a
success is reported only for the first passing validation; if validation
never passes the driver stops with `stop_after_delay` fired (elapsed time
at least the maximum duration), and `_install` then ends Blocked with the
install-failure message; when a validation pass succeeds, install runs it
once and goes Active. -/
theorem c6_retry_backoff (oracle : Nat → Bool) (md : ℚ) :
    (∀ n, 1 / 10 ≤ waitExponential n ∧ waitExponential n ≤ 15 ∧
      waitExponential n ≤ waitExponential (n + 1))
    ∧ maxTimeCheckingResourcesDefault = 150
    ∧ (∀ a, retryDriver oracle md = .ok a →
        oracle a = true ∧ ∀ j, 1 ≤ j → j < a → oracle j = false)
    ∧ ((∀ n, oracle n = false) → ∃ a e, retryDriver oracle md = .failed a e ∧ md ≤ e)
    ∧ retryDriver oracle md ≠ .fuelout
    ∧ (∀ (env : FaultEnv) (ch : CharmModel) (s0 : TraceState) (c1 c2 c3 : Cluster),
        create_resource env ch s0.cluster "rbac" = .ok c1 →
        create_resource env ch c1 "crds" = .ok c2 →
        create_resource env ch c2 "controller" = .ok c3 →
        (check_outcome env ch.clientNs c3 (renderAll ch)).1 = false →
        ∃ s', installE env ch s0 = .ok s' ∧
          s'.statuses = s0.statuses ++
            [.maintenance INSTALLING_MSG, .blocked INSTALL_FAILED_MSG])
    ∧ (∀ (env : FaultEnv) (ch : CharmModel) (s0 : TraceState) (c1 c2 c3 : Cluster),
        create_resource env ch s0.cluster "rbac" = .ok c1 →
        create_resource env ch c1 "crds" = .ok c2 →
        create_resource env ch c2 "controller" = .ok c3 →
        (check_outcome env ch.clientNs c3 (renderAll ch)).1 = true →
        ∃ s', installE env ch s0 = .ok s' ∧
          s'.statuses = s0.statuses ++ [.maintenance INSTALLING_MSG, .active]
          ∧ s'.checkCalls = s0.checkCalls + 1) := by
  refine ⟨fun n => ⟨waitExponential_lb n, waitExponential_ub n, waitExponential_mono n⟩,
    rfl,
    fun a h => retryDriver_ok_sound oracle md a h,
    fun hall => retryDriver_allfalse oracle md hall,
    retryDriver_ne_fuelout oracle md, ?_, ?_⟩
  · intro env ch s0 c1 c2 c3 h1 h2 h3 h4
    rw [installE_rbac_ok env ch s0 c1 h1]
    set sA : TraceState := pushApplier
      { pushApplier (pushStatus s0 (.maintenance INSTALLING_MSG)) "rbac" with cluster := c1 }
      "crds" with hsA
    rw [installCrdsPhase_ok env ch sA c2 h2]
    set sB : TraceState := pushApplier { sA with cluster := c2 } "controller" with hsB
    rw [installControllerPhase_ok env ch sB c3 h3]
    obtain ⟨n, heq⟩ := installCheckPhase_false env ch { sB with cluster := c3 } h4
    rw [heq]
    refine ⟨_, rfl, ?_⟩
    simp [hsA, hsB, pushStatus, pushApplier, bumpChecks]
  · intro env ch s0 c1 c2 c3 h1 h2 h3 h4
    rw [installE_rbac_ok env ch s0 c1 h1]
    set sA : TraceState := pushApplier
      { pushApplier (pushStatus s0 (.maintenance INSTALLING_MSG)) "rbac" with cluster := c1 }
      "crds" with hsA
    rw [installCrdsPhase_ok env ch sA c2 h2]
    set sB : TraceState := pushApplier { sA with cluster := c2 } "controller" with hsB
    rw [installControllerPhase_ok env ch sB c3 h3]
    rw [installCheckPhase_true env ch { sB with cluster := c3 } h4]
    refine ⟨_, rfl, ?_, ?_⟩
    · simp [hsA, hsB, pushStatus, pushApplier, bumpChecks]
    · simp [hsA, hsB, pushStatus, pushApplier, bumpChecks]

/-- The cluster after the rbac group of `chUnreadyW` is applied. -/
def c6c1W : Cluster := [(objKey "default" rbW, rbW)]

/-- The cluster after the crds group follows. -/
def c6c2W : Cluster := [(objKey "default" rbW, rbW), (objKey "default" crW, crW)]

/-- The cluster after the controller group (whose StatefulSet stays unready). -/
def c6c3W : Cluster :=
  [(objKey "default" rbW, rbW), (objKey "default" crW, crW),
   (objKey "default" ctUnreadyW, ctUnreadyW)]

/-- Witness for C6 at concrete inputs: with a never-ready StatefulSet the
install transition ends Blocked with the install-failure message, and the
all-false driver at the default 150 s deadline stops with elapsed time at
least 150 s. -/
theorem c6_retry_backoff_witness :
    (∃ s', installE noFaults chUnreadyW emptyTrace = .ok s' ∧
      s'.statuses = [.maintenance INSTALLING_MSG, .blocked INSTALL_FAILED_MSG])
    ∧ (∃ a e, retryDriver (fun _ => false) 150 = .failed a e ∧ (150:ℚ) ≤ e) := by
  constructor
  · have h := (c6_retry_backoff (fun _ => false) 150).2.2.2.2.2.1 noFaults chUnreadyW
      emptyTrace c6c1W c6c2W c6c3W (by rfl) (by rfl) (by rfl) (by rfl)
    simpa [emptyTrace] using h
  · exact (c6_retry_backoff (fun _ => false) 150).2.2.2.1 (fun n => rfl)

/-! ### C8: applying twice with patch policy, vs applying once -/

/-- Updating a key makes it hold the new value. -/
theorem lookup_clusterSet_self (c : Cluster) (k : ResKey) (v : K8sObject) :
    lookupObj (clusterSet c k v) k = some v := by
  induction c with
  | nil => simp [clusterSet, lookupObj]
  | cons p rest ih =>
    obtain ⟨k2, w⟩ := p
    by_cases hk : k2 = k
    · simp [clusterSet, hk, lookupObj]
    · simp [clusterSet, hk, lookupObj, ih]

/-- Updating a key leaves every other key unchanged. -/
theorem lookup_clusterSet_other (c : Cluster) (k k2 : ResKey) (v : K8sObject)
    (hk : k2 ≠ k) : lookupObj (clusterSet c k v) k2 = lookupObj c k2 := by
  induction c with
  | nil => simp [clusterSet, lookupObj, Ne.symm hk]
  | cons p rest ih =>
    obtain ⟨ke, w⟩ := p
    by_cases hke : ke = k
    · subst hke
      have hne : ke ≠ k2 := Ne.symm hk
      simp [clusterSet, lookupObj, hne]
    · simp [clusterSet, hke, lookupObj, ih]

/-- Writing back the value a key already holds is a no-op. -/
theorem clusterSet_self_eq (c : Cluster) (k : ResKey) (v : K8sObject)
    (h : lookupObj c k = some v) : clusterSet c k v = c := by
  induction c with
  | nil => simp [lookupObj] at h
  | cons p rest ih =>
    obtain ⟨ke, w⟩ := p
    by_cases hke : ke = k
    · subst hke
      have h2 : w = v := by simpa [lookupObj] using h
      simp [clusterSet, h2]
    · simp only [lookupObj, if_neg hke] at h
      simp [clusterSet, hke, ih h]

/-- Under patch policy, with no injected fault, and when the object's
namespace resolution agrees with the client default, one loop step —
whether a fresh create or a 409 recovered by the patch — stores exactly
the object at its key. -/
theorem createLoop_patch_step (cns : String) (c : Cluster) (o : K8sObject)
    (rest : List K8sObject) (hns : o.metaNs.getD cns = cns) :
    createLoop noFaults cns (some "patch") c (o :: rest) =
      createLoop noFaults cns (some "patch") (clusterSet c (objKey cns o) o) rest := by
  have hkey : ((o.kind, o.name, cns) : ResKey) = objKey cns o := by
    simp [objKey, hns]
  cases hl : lookupObj c (objKey cns o) with
  | none =>
    apply createLoop_cons_ok
    simp [clientCreate, noFaults, faultFor, hl]
  | some w =>
    apply createLoop_cons_409_patch
    · simp [clientCreate, noFaults, faultFor, hl]
    · simp [clientPatchMerge, hkey, hl]

/-- The cluster-state effect of the patch-policy loop: each step, whether
a fresh create or a 409 recovered by the namespace-less patch, stores the
object at its key, so a run is a left fold of `clusterSet`. -/
def applyPatchFold (cns : String) (c : Cluster) (objs : List K8sObject) : Cluster :=
  objs.foldl (fun c2 o => clusterSet c2 (objKey cns o) o) c

/-- Writing the same key twice keeps only the second write. -/
theorem clusterSet_set_same (c : Cluster) (k : ResKey) (v w : K8sObject) :
    clusterSet (clusterSet c k v) k w = clusterSet c k w := by
  induction c with
  | nil => simp [clusterSet]
  | cons p rest ih =>
    obtain ⟨ke, u⟩ := p
    by_cases hke : ke = k
    · simp [clusterSet, hke]
    · simp [clusterSet, hke, ih]

/-- Writes to two different keys commute when the first key is already
present (its update is in place, so no append order is at stake). -/
theorem clusterSet_comm (c : Cluster) (a b : ResKey) (v w : K8sObject)
    (ha : (lookupObj c a).isSome) (hab : a ≠ b) :
    clusterSet (clusterSet c a v) b w = clusterSet (clusterSet c b w) a v := by
  induction c with
  | nil => simp [lookupObj] at ha
  | cons p rest ih =>
    obtain ⟨ke, u⟩ := p
    have hba : b ≠ a := Ne.symm hab
    by_cases hka : ke = a
    · have hkb : ¬(ke = b) := by
        rw [hka]
        exact hab
      simp [clusterSet, hka, hkb, hab, hba]
    · by_cases hkb : ke = b
      · simp [clusterSet, hka, hkb, hab, hba]
      · have ha2 : (lookupObj rest a).isSome := by
          simpa [lookupObj, hka] using ha
        simp [clusterSet, hka, hkb, ih ha2]

/-- A write never removes a key. -/
theorem lookup_clusterSet_isSome (c : Cluster) (k k2 : ResKey) (v : K8sObject)
    (h : (lookupObj c k2).isSome) : (lookupObj (clusterSet c k v) k2).isSome := by
  by_cases hk : k2 = k
  · subst hk
    rw [lookup_clusterSet_self]
    rfl
  · rw [lookup_clusterSet_other c k k2 v hk]
    exact h

/-- The fold never removes a key. -/
theorem applyPatchFold_isSome (cns : String) :
    ∀ (objs : List K8sObject) (c : Cluster) (k : ResKey),
      (lookupObj c k).isSome → (lookupObj (applyPatchFold cns c objs) k).isSome := by
  intro objs
  induction objs with
  | nil => intro c k h; exact h
  | cons o rest ih =>
    intro c k h
    exact ih (clusterSet c (objKey cns o) o) k (lookup_clusterSet_isSome c (objKey cns o) k o h)

/-- The fold leaves unwritten keys unchanged. -/
theorem applyPatchFold_frame (cns : String) :
    ∀ (objs : List K8sObject) (c : Cluster) (k : ResKey),
      k ∉ objs.map (objKey cns) →
      lookupObj (applyPatchFold cns c objs) k = lookupObj c k := by
  intro objs
  induction objs with
  | nil => intro c k _; rfl
  | cons o rest ih =>
    intro c k hk
    have hk1 : k ≠ objKey cns o := by
      intro hcontra
      exact hk (by simp [hcontra])
    have hk2 : k ∉ rest.map (objKey cns) := by
      intro hcontra
      exact hk (by simp [hcontra])
    have hstep : applyPatchFold cns c (o :: rest) =
        applyPatchFold cns (clusterSet c (objKey cns o) o) rest := rfl
    rw [hstep, ih (clusterSet c (objKey cns o) o) k hk2,
      lookup_clusterSet_other c _ k o hk1]

/-- An extra leading write to a key that is present and that the sequence
writes again later is absorbed: the last writer wins and positions are
stable, so the fold result is unchanged. -/
theorem applyPatchFold_overwrite_absorbed (cns : String) :
    ∀ (rest : List K8sObject) (c : Cluster) (ko : ResKey) (o : K8sObject),
      (lookupObj c ko).isSome →
      (∃ o2 ∈ rest, objKey cns o2 = ko) →
      applyPatchFold cns (clusterSet c ko o) rest = applyPatchFold cns c rest := by
  intro rest
  induction rest with
  | nil =>
    intro c ko o _ hex
    obtain ⟨o2, hmem, _⟩ := hex
    exact absurd hmem (List.not_mem_nil o2)
  | cons o2 rest2 ih =>
    intro c ko o hsome hex
    have hstep : ∀ d, applyPatchFold cns d (o2 :: rest2) =
        applyPatchFold cns (clusterSet d (objKey cns o2) o2) rest2 := fun d => rfl
    rw [hstep, hstep]
    by_cases hk : objKey cns o2 = ko
    · rw [hk, clusterSet_set_same]
    · obtain ⟨o3, ho3mem, ho3key⟩ := hex
      have hex2 : ∃ o4 ∈ rest2, objKey cns o4 = ko := by
        rcases List.mem_cons.mp ho3mem with heq | h2
        · exact absurd (heq ▸ ho3key) hk
        · exact ⟨o3, h2, ho3key⟩
      rw [clusterSet_comm c ko (objKey cns o2) o o2 hsome (fun hcontra => hk hcontra.symm)]
      exact ih (clusterSet c (objKey cns o2) o2) ko o
        (lookup_clusterSet_isSome c (objKey cns o2) ko o2 hsome) hex2

/-- Re-running the fold on its own result changes nothing: every key it
writes already exists and already holds its last-written value, so the
second pass is a sequence of in-place no-op-or-restored writes. -/
theorem applyPatchFold_idem (cns : String) :
    ∀ (objs : List K8sObject) (c : Cluster),
      applyPatchFold cns (applyPatchFold cns c objs) objs = applyPatchFold cns c objs := by
  intro objs
  induction objs with
  | nil => intro c; rfl
  | cons o rest ih =>
    intro c
    have hstep : ∀ d, applyPatchFold cns d (o :: rest) =
        applyPatchFold cns (clusterSet d (objKey cns o) o) rest := fun d => rfl
    rw [hstep, hstep]
    by_cases hmem : ∃ o2 ∈ rest, objKey cns o2 = objKey cns o
    · have hsome : (lookupObj (applyPatchFold cns (clusterSet c (objKey cns o) o) rest)
          (objKey cns o)).isSome := by
        apply applyPatchFold_isSome
        rw [lookup_clusterSet_self]
        rfl
      rw [applyPatchFold_overwrite_absorbed cns rest _ (objKey cns o) o hsome hmem]
      exact ih (clusterSet c (objKey cns o) o)
    · have hnotin : objKey cns o ∉ rest.map (objKey cns) := by
        intro hcontra
        obtain ⟨o2, hmem2, hkey2⟩ := List.mem_map.mp hcontra
        exact hmem ⟨o2, hmem2, hkey2⟩
      have hlook : lookupObj (applyPatchFold cns (clusterSet c (objKey cns o) o) rest)
          (objKey cns o) = some o := by
        rw [applyPatchFold_frame cns rest _ _ hnotin, lookup_clusterSet_self]
      rw [clusterSet_self_eq _ _ _ hlook]
      exact ih (clusterSet c (objKey cns o) o)

/-- Under patch policy (and the namespace proviso) the loop always
succeeds, and its result is exactly the fold of per-object writes. -/
theorem createLoop_patch_eq_fold (cns : String) :
    ∀ (objs : List K8sObject) (c : Cluster),
      (∀ o ∈ objs, o.metaNs.getD cns = cns) →
      createLoop noFaults cns (some "patch") c objs = .ok (applyPatchFold cns c objs) := by
  intro objs
  induction objs with
  | nil => intro c _; rfl
  | cons o rest ih =>
    intro c hns
    rw [createLoop_patch_step cns c o rest (hns o (List.mem_cons_self o rest))]
    exact ih (clusterSet c (objKey cns o) o) (fun o2 h => hns o2 (List.mem_cons_of_mem o h))

/-- C8 amended: applying a set twice with conflict policy patch yields the
same final cluster state as applying it once, PROVIDED every object's
namespace resolution agrees with the client default namespace (so the
namespace-less patch call addresses the same key the create used).  No
distinctness of the objects is needed: duplicate keys are last-writer-wins
on both passes.  The counterexample shows the namespace proviso is
needed. -/
theorem c8_amended_idempotent (cns : String) (c : Cluster) (objs : List K8sObject)
    (hns : ∀ o ∈ objs, o.metaNs.getD cns = cns) :
    ∃ c1, create_all_lightkube_objects noFaults cns (some "patch") c objs = .ok c1 ∧
      create_all_lightkube_objects noFaults cns (some "patch") c1 objs = .ok c1 := by
  have hform : ∀ c2 : Cluster, create_all_lightkube_objects noFaults cns (some "patch") c2 objs =
      createLoop noFaults cns (some "patch") c2 objs := fun c2 => rfl
  refine ⟨applyPatchFold cns c objs, ?_, ?_⟩
  · rw [hform]
    exact createLoop_patch_eq_fold cns objs c hns
  · rw [hform, createLoop_patch_eq_fold cns objs (applyPatchFold cns c objs) hns,
      applyPatchFold_idem cns objs c]

/-- A second RBAC object with the same key as `rbW` but a different
payload: the witness set deliberately has a duplicate key. -/
def rbDupW : K8sObject := ⟨"ClusterRole", "mc-role", none, none, none, 11⟩

/-- Witness for the amended C8 at concrete inputs, on a set with a
duplicate key (no distinctness hypothesis is involved). -/
theorem c8_amended_idempotent_witness :
    ∃ c1, create_all_lightkube_objects noFaults "default" (some "patch") []
        [rbW, rbDupW, crW] = .ok c1 ∧
      create_all_lightkube_objects noFaults "default" (some "patch") c1
        [rbW, rbDupW, crW] = .ok c1 :=
  c8_amended_idempotent "default" [] [rbW, rbDupW, crW] (by decide)

/-- The desired object, in its own namespace "model". -/
def o8W : K8sObject := ⟨"Deployment", "mc", some "model", none, none, 7⟩

/-- An unrelated object with the same kind and name in the client default
namespace. -/
def v8W : K8sObject := ⟨"Deployment", "mc", some "default", none, none, 8⟩

/-- The initial cluster state: only the unrelated object exists. -/
def c8preW : Cluster := [(("Deployment", "mc", "default"), v8W)]

/-- After one apply: the desired object was created in "model". -/
def c8onceW : Cluster :=
  [(("Deployment", "mc", "default"), v8W), (("Deployment", "mc", "model"), o8W)]

/-- After the second apply: the 409 recovery patched the OTHER object, the
one in the client default namespace. -/
def c8twiceW : Cluster :=
  [(("Deployment", "mc", "default"), o8W), (("Deployment", "mc", "model"), o8W)]

/-- C8 counterexample: applying `[o8W]` twice with patch policy does not
leave the cluster as one apply does — the second apply's namespace-less
patch overwrites the unrelated (Deployment, mc, default) object. -/
theorem c8_counterexample :
    create_all_lightkube_objects noFaults "default" (some "patch") c8preW [o8W] = .ok c8onceW
    ∧ create_all_lightkube_objects noFaults "default" (some "patch") c8onceW [o8W] =
        .ok c8twiceW
    ∧ c8twiceW ≠ c8onceW :=
  ⟨rfl, rfl, by decide⟩
